import Mathlib

/-!
Verification development for the notification / ASID / fault-dispatch core
of the mi-dev-integral-rel4 microkernel (Rust sources:
`sel4_ipc/src/notification.rs`, `sel4_vspace/src/arch/aarch64/asid.rs`,
`kernel/src/arch/aarch64/exception.rs`).

The Rust code is shallowly embedded: the notification object, the ASID
directory and the fault dispatcher become pure Lean functions over explicit
state records.  Collaborator interfaces that live outside the sampled
sources (thread registry, scheduler hooks, TLB invalidation, `set_vm_root`)
are modelled from the specification's interface description and tracked as
ghost fields of the state, so that "the scheduler was asked to reschedule
exactly once" and similar effects are provable statements.
-/

set_option maxRecDepth 8192

namespace ReL4

/-- The state of a notification (`NtfnState` in `notification.rs`). -/
inductive NtfnState where
  | Idle
  | Waiting
  | Active
deriving DecidableEq, Repr

/-- Thread execution states (`ThreadState` from `sel4_task`, used by
`notification.rs`).  Modelled from the spec: only the constructors the
sampled code mentions are needed. -/
inductive ThreadState where
  | ThreadStateInactive
  | ThreadStateRunning
  | ThreadStateRestart
  | ThreadStateBlockedOnReceive
  | ThreadStateBlockedOnSend
  | ThreadStateBlockedOnNotification
  | ThreadStateBlockedOnReply
  | ThreadStateIdleThreadState
deriving DecidableEq, Repr

/-- Modelled from the spec: the slice of a TCB (`tcb_t` from `sel4_task`)
that the notification code reads or writes — the execution state, the
badge register (`tcbArch.set_register(ArchReg::Badge, _)`), the blocking
object recorded by `tcbState.set_blocking_object`, and a ghost flag
recording that `cancel_ipc` was invoked on the thread. -/
structure tcb_t where
  tcbState : ThreadState
  badgeReg : Nat
  blockingObj : Nat
  ipcCancelled : Bool
deriving DecidableEq, Repr

/-- Kernel state visible to the notification operations: the notification
object's own fields (`state`, `bound_tcb`, `msg_identifier`, and the wait
queue whose `queue_head`/`queue_tail` words we model as the list of queued
thread identifiers, head first), the thread registry, and ghost scheduler
effects.  A thread identifier of `0` is the null pointer
(`convert_to_option_mut_type_ref` yields `None` exactly on `0`). -/
structure KS where
  ntfnState : NtfnState
  boundTcb : Nat
  msgIdentifier : Nat
  queue : List Nat
  ntfnPtr : Nat
  threads : Nat → tcb_t
  runQueue : List Nat
  switchTo : List Nat
  reschedCount : Nat

/-- Point update of one thread in the registry. -/
def updThread (t : Nat) (f : tcb_t → tcb_t) (s : KS) : KS :=
  { s with threads := fun i => if i = t then f (s.threads i) else s.threads i }

/-- Modelled from the spec: `set_thread_state` (collaborator from
`sel4_task`) mutates the thread's execution-state field. -/
def set_thread_state (t : Nat) (ts : ThreadState) (s : KS) : KS :=
  updThread t (fun th => { th with tcbState := ts }) s

/-- Modelled from the spec: writing the badge register
(`tcb.tcbArch.set_register(ArchReg::Badge, b)`). -/
def set_badge_register (t : Nat) (b : Nat) (s : KS) : KS :=
  updThread t (fun th => { th with badgeReg := b }) s

/-- Modelled from the spec: `tcb.cancel_ipc()` cancels the thread's pending
IPC; we record the effect in the ghost `ipcCancelled` flag. -/
def cancel_ipc (t : Nat) (s : KS) : KS :=
  updThread t (fun th => { th with ipcCancelled := true }) s

/-- Modelled from the spec: scheduler collaborator `possible_switch_to`
offers the thread as a possible switch target (ghost trace). -/
def possible_switch_to (t : Nat) (s : KS) : KS :=
  { s with switchTo := s.switchTo ++ [t] }

/-- Modelled from the spec: scheduler collaborator `sched_enqueue` puts the
thread on the run queue. -/
def sched_enqueue (t : Nat) (s : KS) : KS :=
  { s with runQueue := s.runQueue ++ [t] }

/-- Modelled from the spec: scheduler collaborator `rescheduleRequired`
raises the reschedule-required flag; the ghost counter lets us count how
often it was raised. -/
def rescheduleRequired (s : KS) : KS :=
  { s with reschedCount := s.reschedCount + 1 }

/-- Embeds `notification_t::active`: set the notification to `Active` with
`msg_identifier = badge` (overwrites any previous value). -/
def active (badge : Nat) (s : KS) : KS :=
  { s with ntfnState := .Active, msgIdentifier := badge }

/-- Embeds `notification_t::send_signal`.  Returns `none` on the
`panic!("queue is empty!")` path (state `Waiting` with an empty queue).
The queue is FIFO: `ep_dequeue` of the head takes the tail of the list. -/
def send_signal (badge : Nat) (s : KS) : Option KS :=
  match s.ntfnState with
  | .Idle =>
      if s.boundTcb = 0 then
        some (active badge s)
      else if (s.threads s.boundTcb).tcbState = .ThreadStateBlockedOnReceive then
        some (possible_switch_to s.boundTcb
          (set_badge_register s.boundTcb badge
            (set_thread_state s.boundTcb .ThreadStateRunning
              (cancel_ipc s.boundTcb s))))
      else
        some (active badge s)
  | .Waiting =>
      match s.queue with
      | [] => none
      | dest :: rest =>
          let s1 : KS := { s with queue := rest }
          let s2 : KS := if rest = [] then { s1 with ntfnState := .Idle } else s1
          some (possible_switch_to dest
            (set_badge_register dest badge
              (set_thread_state dest .ThreadStateRunning s2)))
  | .Active =>
      some { s with msgIdentifier := s.msgIdentifier ||| badge }

/-- Embeds `notification_t::receive_signal`. -/
def receive_signal (t : Nat) (is_blocking : Bool) (s : KS) : KS :=
  match s.ntfnState with
  | .Idle | .Waiting =>
      if is_blocking then
        let s1 := updThread t (fun th => { th with blockingObj := s.ntfnPtr }) s
        let s2 := set_thread_state t .ThreadStateBlockedOnNotification s1
        { s2 with queue := s2.queue ++ [t], ntfnState := .Waiting }
      else
        set_badge_register t 0 s
  | .Active =>
      { set_badge_register t s.msgIdentifier s with ntfnState := .Idle }

/-- Embeds `notification_t::cancel_signal`: remove `t` from the wait queue
(`ep_dequeue` handles head/tail/middle removal; on the list model this is
`List.erase`), fall back to `Idle` when the queue emptied, and mark the
thread `Inactive`. -/
def cancel_signal (t : Nat) (s : KS) : KS :=
  let q := s.queue.erase t
  let s1 : KS := { s with queue := q }
  let s2 : KS := if q = [] then { s1 with ntfnState := .Idle } else s1
  set_thread_state t .ThreadStateInactive s2

/-- The head-to-tail drain loop of `cacncel_all_signal`: each previously
queued thread is set to `Restart` and enqueued into the run queue. -/
def drainQueue : List Nat → KS → KS
  | [], s => s
  | t :: ts, s => drainQueue ts (sched_enqueue t (set_thread_state t .ThreadStateRestart s))

/-- Embeds `notification_t::cacncel_all_signal`: effective only in `Waiting`;
transitions to `Idle`, clears `queue_head`/`queue_tail`, drains the old
queue head-to-tail, then raises reschedule-required once. -/
def cacncel_all_signal (s : KS) : KS :=
  if s.ntfnState = .Waiting then
    rescheduleRequired (drainQueue s.queue { s with ntfnState := .Idle, queue := [] })
  else
    s

/-- Embeds `notification_t::bind_tcb`. -/
def bind_tcb (t : Nat) (s : KS) : KS :=
  { s with boundTcb := t }

/-- Embeds `notification_t::unbind_tcb`. -/
def unbind_tcb (s : KS) : KS :=
  { s with boundTcb := 0 }

/-- The notification-object part of the documented invariant: the state is
`Waiting` exactly when the wait queue is non-empty. -/
def NtfnInv (s : KS) : Prop :=
  s.ntfnState = .Waiting ↔ s.queue ≠ []

instance (s : KS) : Decidable (NtfnInv s) := by
  unfold NtfnInv; infer_instance

/-! ### ASID directory (`sel4_vspace/src/arch/aarch64/asid.rs`) -/

/-- Embeds `asidLowBits` from `sel4_config`.  Modelled from the spec: the spec
only fixes the shape `2^lowBits` slots per pool; none of the theorems
depend on the concrete value (the standard aarch64 value is used). -/
def asidLowBits : Nat := 9

/-- Embeds `asidHighBits` from `sel4_config`.  Modelled from the spec, as for
`asidLowBits`. -/
def asidHighBits : Nat := 7

/-- Embeds `BIT!(x)` from `sel4_common`. -/
def BIT (x : Nat) : Nat := 1 <<< x

/-- Embeds `MASK!(x)` from `sel4_common`. -/
def MASK (x : Nat) : Nat := (1 <<< x) - 1

def asid_map_asid_map_none : Nat := 0

def asid_map_asid_map_vspace : Nat := 1

/-- Modelled from the spec: an ASID mapping (`asid_map_t`, from
`sel4_common`) is a tag in `{None, VSpace}` plus, for `VSpace`, the stored
translation-root address.  Mirrors the generated bitfield accessors
`get_type` / `get_vspace_root` and constructors `new_none` / `new_vspace`. -/
structure asid_map_t where
  type_ : Nat
  vspace_root : Nat
deriving DecidableEq, Repr

def asid_map_t.get_type (m : asid_map_t) : Nat := m.type_

def asid_map_t.get_vspace_root (m : asid_map_t) : Nat := m.vspace_root

def asid_map_t.new_none : asid_map_t := ⟨asid_map_asid_map_none, 0⟩

def asid_map_t.new_vspace (root : Nat) : asid_map_t := ⟨asid_map_asid_map_vspace, root⟩

/-- Modelled from the spec: a capability is abstracted to the
translation-root address it carries; only `set_vm_root` consumes it. -/
structure cap_t where
  root : Nat
deriving DecidableEq, Repr

/-- Embeds `exception_t` from `sel4_common::structures`. -/
inductive exception_t where
  | EXCEPTION_NONE
  | EXCEPTION_FAULT
  | EXCEPTION_LOOKUP_FAULT
  | EXCEPTION_SYSCALL_ERROR
deriving DecidableEq, Repr

/-- Embeds `lookup_fault_t` from `sel4_common::fault`; `new_root_invalid` is the
only constructor the sampled code builds. -/
inductive lookup_fault_t where
  | root_invalid
  | missing_capability
deriving DecidableEq, Repr

/-- State touched by the ASID-directory operations: the top-level table
`armKSASIDTable` (directory index to pool address, `0` = empty slot), a
memory of pools (pool address and slot index to stored mapping), and two
ghost effect trackers: the list of ASIDs passed to
`invalidate_local_tlb_asid` and the active translation root re-derived by
`set_vm_root`. -/
structure AState where
  table : Nat → Nat
  poolMem : Nat → Nat → asid_map_t
  tlbInvalidated : List Nat
  activeRoot : Option Nat

/-- Modelled from the spec: the TLB-invalidation collaborator
`invalidate_local_tlb_asid` (ghost trace of invalidated ASIDs). -/
def invalidate_local_tlb_asid (asid : Nat) (s : AState) : AState :=
  { s with tlbInvalidated := s.tlbInvalidated ++ [asid] }

/-- Modelled from the spec: `set_vm_root(cap)` re-derives the currently
active hardware translation root from the capability; always succeeds in
this model. -/
def set_vm_root (cap : cap_t) (s : AState) : Except lookup_fault_t Unit × AState :=
  (Except.ok (), { s with activeRoot := some cap.root })

/-- Embeds `get_asid_pool_by_index` (a read of `armKSASIDTable`). -/
def get_asid_pool_by_index (s : AState) (idx : Nat) : Nat := s.table idx

/-- Embeds `set_asid_pool_by_index` (a write of `armKSASIDTable`). -/
def set_asid_pool_by_index (idx val : Nat) (s : AState) : AState :=
  { s with table := fun i => if i = idx then val else s.table i }

/-- Embeds `find_map_for_asid`: dereference the directory slot
(`convert_to_option_mut_type_ref` is `None` exactly on address `0`) and,
when a pool is installed, return the mapping at `asid & MASK!(asidLowBits)`
— note the source returns the slot contents regardless of the mapping's
kind. -/
def find_map_for_asid (s : AState) (asid : Nat) : Option asid_map_t :=
  let poolPtr := get_asid_pool_by_index s (asid >>> asidLowBits)
  if poolPtr = 0 then none
  else some (s.poolMem poolPtr (asid &&& MASK asidLowBits))

/-- Embeds `findVSpaceForASID_ret` from `sel4_vspace`. -/
structure findVSpaceForASID_ret where
  status : exception_t
  vspace_root : Option Nat
  lookup_fault : Option lookup_fault_t
deriving DecidableEq, Repr

/-- Embeds `find_vspace_for_asid`: starts from the lookup-fault result (status
`EXCEPTION_LOOKUP_FAULT`, `lookup_fault = root_invalid`) and, whenever
`find_map_for_asid` returns a mapping — of any kind — flips the status to
`EXCEPTION_NONE` and reports the stored `vspace_root`. -/
def find_vspace_for_asid (s : AState) (asid : Nat) : findVSpaceForASID_ret :=
  match find_map_for_asid s asid with
  | some asid_map =>
      { status := .EXCEPTION_NONE
        vspace_root := some asid_map.get_vspace_root
        lookup_fault := some .root_invalid }
  | none =>
      { status := .EXCEPTION_LOOKUP_FAULT
        vspace_root := none
        lookup_fault := some .root_invalid }

/-- Point update of one pool slot in pool memory. -/
def updPool (addr slot : Nat) (m : asid_map_t) (s : AState) : AState :=
  { s with poolMem := fun a i =>
      if a = addr ∧ i = slot then m else s.poolMem a i }

/-- Embeds `delete_asid`: acts only when the pool exists, the mapping is of kind
`VSpace` and its root equals the supplied `vspace`; then it invalidates
the TLB for `asid`, clears the slot to `new_none` and re-derives the
active root via `set_vm_root(cap)`; otherwise `Ok(())` with no state
change. -/
def delete_asid (asid : Nat) (vspace : Nat) (cap : cap_t) (s : AState) :
    Except lookup_fault_t Unit × AState :=
  let poolPtr := s.table (asid >>> asidLowBits)
  if poolPtr = 0 then (Except.ok (), s)
  else
    let asid_map := s.poolMem poolPtr (asid &&& MASK asidLowBits)
    if asid_map.get_type = asid_map_asid_map_vspace ∧
        asid_map.get_vspace_root = vspace then
      let s1 := invalidate_local_tlb_asid asid s
      let s2 := updPool poolPtr (asid &&& MASK asidLowBits) asid_map_t.new_none s1
      set_vm_root cap s2
    else
      (Except.ok (), s)

/-- The `for offset in 0..BIT!(asidLowBits)` loop of `delete_asid_pool`:
invalidate the TLB for `asid_base + offset` at every `VSpace`-kind slot. -/
def invalidatePoolLoop (asid_base : Nat) (pool : Nat → asid_map_t) :
    List Nat → AState → AState
  | [], s => s
  | off :: offs, s =>
      let s1 :=
        if (pool off).get_type = asid_map_asid_map_vspace then
          invalidate_local_tlb_asid (asid_base + off) s
        else s
      invalidatePoolLoop asid_base pool offs s1

/-- Embeds `delete_asid_pool`: acts only when the supplied pool address equals the
pool installed at directory slot `asid_base >> asidLowBits`; then sweeps
all `2^asidLowBits` slots invalidating the TLB of every `VSpace`-kind
mapping, clears the directory slot to `0`, and re-derives the active root
from `default_vspace_cap`; otherwise `Ok(())` with no state change. -/
def delete_asid_pool (asid_base : Nat) (pool : Nat) (default_vspace_cap : cap_t)
    (s : AState) : Except lookup_fault_t Unit × AState :=
  let pool_in_table := get_asid_pool_by_index s (asid_base >>> asidLowBits)
  if pool = pool_in_table then
    let s1 := invalidatePoolLoop asid_base (s.poolMem pool_in_table)
      (List.range (BIT asidLowBits)) s
    let s2 := set_asid_pool_by_index (asid_base >>> asidLowBits) 0 s1
    set_vm_root default_vspace_cap s2
  else
    (Except.ok (), s)

/-! ### Fault dispatcher (`kernel/src/arch/aarch64/exception.rs`) -/

/-- Embeds `ARMDataAbort` (`seL4_DataFault = 0`) — value documented in the source
comment of `handle_vm_fault` and in the interface description. -/
def ARMDataAbort : Nat := 0

/-- Embeds `ARMPrefetchAbort` (`seL4_InstructionFault = 1`) — value documented in
the source comment of `handle_vm_fault`. -/
def ARMPrefetchAbort : Nat := 1

/-- Embeds `seL4_Fault_t` (from `sel4_common::fault`), restricted to the variants
the sampled dispatcher builds.  `new_vm_fault(address, fsr, flag)` carries
the instruction-fault flag as the `0/1` word the source passes. -/
inductive seL4_Fault_t where
  | NullFault
  | UserException (word_a word_b : Nat)
  | VMFault (address fsr instructionFault : Nat)
deriving DecidableEq, Repr

/-- The hardware context `handle_vm_fault` reads: the fault-address
register (`get_far`), the syndrome register (`get_esr`), and the faulting
thread's saved program counter (`tcbArch.get_register(ArchReg::FaultIP)`).
Modelled from the spec's fault-register collaborator interface. -/
structure HWCtx where
  far : Nat
  esr : Nat
  faultIP : Nat
deriving DecidableEq, Repr

/-- Embeds `handle_vm_fault`: classify the fault kind, build the `current_fault`
record and return the status; `none` models the
`panic!("Invalid VM fault type")` arm.  Returns the written
`current_fault` paired with the returned status. -/
def handle_vm_fault (hw : HWCtx) (type_ : Nat) :
    Option (seL4_Fault_t × exception_t) :=
  if type_ = ARMDataAbort then
    some (.VMFault hw.far hw.esr 0, .EXCEPTION_FAULT)
  else if type_ = ARMPrefetchAbort then
    some (.VMFault hw.faultIP hw.esr 1, .EXCEPTION_FAULT)
  else
    none

/-! ### Theorems -/

/-- C8: `handle_vm_fault` classifies kind `0` (`ARMDataAbort`) into a
`VMFault` at the fault-address register with instruction-fault flag `0`
(not prefetch), kind `1` (`ARMPrefetchAbort`) into a `VMFault` at the
thread's saved fault instruction pointer with flag `1` (prefetch), and
treats every other kind value as a fatal invariant violation (the panic
path, modelled as `none`), never a recoverable result. -/
theorem handle_vm_fault_classification (hw : HWCtx) (k : Nat) :
    (k = ARMDataAbort →
      handle_vm_fault hw k = some (.VMFault hw.far hw.esr 0, .EXCEPTION_FAULT)) ∧
    (k = ARMPrefetchAbort →
      handle_vm_fault hw k = some (.VMFault hw.faultIP hw.esr 1, .EXCEPTION_FAULT)) ∧
    (k ≠ ARMDataAbort → k ≠ ARMPrefetchAbort → handle_vm_fault hw k = none) := by
  refine ⟨?_, ?_, ?_⟩ <;> intros <;>
    simp_all [handle_vm_fault, ARMDataAbort, ARMPrefetchAbort]

/-- Witness for C8 at concrete hardware context `far = 100`, `esr = 7`,
`faultIP = 200` and kinds `0`, `1`, `2`. -/
theorem handle_vm_fault_classification_witness :
    handle_vm_fault ⟨100, 7, 200⟩ 0 =
        some (.VMFault 100 7 0, .EXCEPTION_FAULT) ∧
    handle_vm_fault ⟨100, 7, 200⟩ 1 =
        some (.VMFault 200 7 1, .EXCEPTION_FAULT) ∧
    handle_vm_fault ⟨100, 7, 200⟩ 2 = none :=
  ⟨(handle_vm_fault_classification ⟨100, 7, 200⟩ 0).1 rfl,
   (handle_vm_fault_classification ⟨100, 7, 200⟩ 1).2.1 rfl,
   (handle_vm_fault_classification ⟨100, 7, 200⟩ 2).2.2 (by decide) (by decide)⟩

/-- Concrete ASID directory used to exercise `find_vspace_for_asid` on a
pool whose slot holds a mapping of kind `None`: the directory slot `0`
holds a pool at address `100`, and every slot of that pool is
`asid_map_t.new_none`. -/
def asidNoneState : AState :=
  { table := fun i => if i = 0 then 100 else 0
    poolMem := fun _ _ => asid_map_t.new_none
    tlbInvalidated := []
    activeRoot := none }

/-- C1: evaluation of the code at the failing input.  With a pool installed
but the mapping at the slot of kind `None` (not `VSpace`),
`find_vspace_for_asid` returns status `EXCEPTION_NONE` together with the
stored (meaningless) root `0` — it never checks the mapping kind — whereas
the claim requires a lookup-fault (root-invalid) report in this case. -/
theorem find_vspace_for_asid_missing_kind_check :
    (find_map_for_asid asidNoneState 0 = some asid_map_t.new_none) ∧
    asid_map_t.new_none.get_type ≠ asid_map_asid_map_vspace ∧
    find_vspace_for_asid asidNoneState 0 =
      { status := .EXCEPTION_NONE
        vspace_root := some 0
        lookup_fault := some .root_invalid } := by
  refine ⟨?_, by decide, ?_⟩ <;> rfl

/-- Concrete ASID directory for the delete-then-lookup scenario: directory
slot `0` holds a pool at address `100` whose slot `0` maps ASID `0` to a
`VSpace` mapping with root `42`; all other slots are `None`. -/
def asidDelState : AState :=
  { table := fun i => if i = 0 then 100 else 0
    poolMem := fun a i =>
      if a = 100 ∧ i = 0 then asid_map_t.new_vspace 42 else asid_map_t.new_none
    tlbInvalidated := []
    activeRoot := none }

/-- C2: evaluation of the code at the failing input.  `delete_asid 0 42`
on a matching mapping does invalidate the TLB for ASID `0`, clear the
mapping to `None` and re-derive the active root from the fallback
capability — but the subsequent `find_vspace_for_asid 0` still returns
status `EXCEPTION_NONE` (with stale root `0`) instead of the lookup fault
the claim requires, because `find_vspace_for_asid` omits the
mapping-kind check. -/
theorem delete_asid_then_find_vspace_not_fault :
    (delete_asid 0 42 ⟨5⟩ asidDelState).1 = Except.ok () ∧
    ((delete_asid 0 42 ⟨5⟩ asidDelState).2.poolMem 100 0 = asid_map_t.new_none) ∧
    (delete_asid 0 42 ⟨5⟩ asidDelState).2.tlbInvalidated = [0] ∧
    (delete_asid 0 42 ⟨5⟩ asidDelState).2.activeRoot = some 5 ∧
    (find_vspace_for_asid (delete_asid 0 42 ⟨5⟩ asidDelState).2 0).status =
      exception_t.EXCEPTION_NONE := by
  refine ⟨rfl, ?_, rfl, rfl, ?_⟩ <;> rfl

/-- The invalidate loop of `delete_asid_pool` only extends the ghost TLB
trace: it appends `asid_base + offset` for exactly the offsets whose pool
slot is of kind `VSpace`, in iteration order. -/
theorem invalidatePoolLoop_eq (asid_base : Nat) (pool : Nat → asid_map_t) :
    ∀ (l : List Nat) (s : AState),
      invalidatePoolLoop asid_base pool l s =
        { s with tlbInvalidated :=
            (s.tlbInvalidated ++ List.map (fun off => asid_base + off)
              (List.filter (fun off => (pool off).get_type = asid_map_asid_map_vspace) l)) } := by
  intro l
  induction l with
  | nil => intro s; simp [invalidatePoolLoop]
  | cons off offs ih =>
      intro s
      by_cases h : (pool off).get_type = asid_map_asid_map_vspace
      · simp [invalidatePoolLoop, h, ih, invalidate_local_tlb_asid]
      · simp [invalidatePoolLoop, h, ih]

/-- C9: `delete_asid_pool(asid_base, pool, cap)` is a silent success-no-op
when `pool` differs from the directory entry at `asid_base >> asidLowBits`;
on a match it invalidates the TLB for `asid_base + offset` at exactly the
offsets (all `2^asidLowBits` of them are visited, in order) whose mapping
kind is `VSpace`, clears the directory slot to empty, leaves pool memory
and the other directory slots untouched, and re-derives the active
translation root from the fallback capability. -/
theorem delete_asid_pool_spec (s : AState) (asid_base poolAddr : Nat) (cap : cap_t) :
    (poolAddr ≠ get_asid_pool_by_index s (asid_base >>> asidLowBits) →
      delete_asid_pool asid_base poolAddr cap s = (Except.ok (), s)) ∧
    (poolAddr = get_asid_pool_by_index s (asid_base >>> asidLowBits) →
      (delete_asid_pool asid_base poolAddr cap s).1 = Except.ok () ∧
      (delete_asid_pool asid_base poolAddr cap s).2.table (asid_base >>> asidLowBits) = 0 ∧
      (∀ i, i ≠ asid_base >>> asidLowBits →
        (delete_asid_pool asid_base poolAddr cap s).2.table i = s.table i) ∧
      (delete_asid_pool asid_base poolAddr cap s).2.poolMem = s.poolMem ∧
      (delete_asid_pool asid_base poolAddr cap s).2.tlbInvalidated =
        s.tlbInvalidated ++ List.map (fun off => asid_base + off)
          (List.filter
            (fun off => (s.poolMem poolAddr off).get_type = asid_map_asid_map_vspace)
            (List.range (BIT asidLowBits))) ∧
      (delete_asid_pool asid_base poolAddr cap s).2.activeRoot = some cap.root) := by
  constructor
  · intro h
    rw [delete_asid_pool, if_neg h]
  · intro h
    rw [get_asid_pool_by_index] at h
    rw [delete_asid_pool, get_asid_pool_by_index, if_pos h,
      invalidatePoolLoop_eq, set_vm_root, set_asid_pool_by_index]
    subst h
    refine ⟨rfl, by simp, fun i hi => by simp [hi], rfl, rfl, rfl⟩

/-- Witness for C9 on the concrete directory `asidDelState` (pool at
address `100` installed at slot `0`, one `VSpace` mapping at offset `0`):
the matching branch clears the slot, records the single TLB invalidation
and re-derives the root. -/
theorem delete_asid_pool_spec_witness :
    (delete_asid_pool 0 100 ⟨5⟩ asidDelState).2.table 0 = 0 ∧
    (delete_asid_pool 0 100 ⟨5⟩ asidDelState).2.activeRoot = some 5 :=
  ⟨((delete_asid_pool_spec asidDelState 0 100 ⟨5⟩).2 rfl).2.1,
   ((delete_asid_pool_spec asidDelState 0 100 ⟨5⟩).2 rfl).2.2.2.2.2⟩

/-! ### Notification helper lemmas -/

@[simp] theorem updThread_ntfnState (t : Nat) (f : tcb_t → tcb_t) (s : KS) :
    (updThread t f s).ntfnState = s.ntfnState := rfl

@[simp] theorem updThread_queue (t : Nat) (f : tcb_t → tcb_t) (s : KS) :
    (updThread t f s).queue = s.queue := rfl

@[simp] theorem updThread_boundTcb (t : Nat) (f : tcb_t → tcb_t) (s : KS) :
    (updThread t f s).boundTcb = s.boundTcb := rfl

@[simp] theorem updThread_msgIdentifier (t : Nat) (f : tcb_t → tcb_t) (s : KS) :
    (updThread t f s).msgIdentifier = s.msgIdentifier := rfl

@[simp] theorem updThread_ntfnPtr (t : Nat) (f : tcb_t → tcb_t) (s : KS) :
    (updThread t f s).ntfnPtr = s.ntfnPtr := rfl

@[simp] theorem updThread_runQueue (t : Nat) (f : tcb_t → tcb_t) (s : KS) :
    (updThread t f s).runQueue = s.runQueue := rfl

@[simp] theorem updThread_switchTo (t : Nat) (f : tcb_t → tcb_t) (s : KS) :
    (updThread t f s).switchTo = s.switchTo := rfl

@[simp] theorem updThread_reschedCount (t : Nat) (f : tcb_t → tcb_t) (s : KS) :
    (updThread t f s).reschedCount = s.reschedCount := rfl

@[simp] theorem updThread_threads_self (t : Nat) (f : tcb_t → tcb_t) (s : KS) :
    (updThread t f s).threads t = f (s.threads t) := by
  simp [updThread]

theorem updThread_threads_ne (t u : Nat) (f : tcb_t → tcb_t) (s : KS)
    (h : u ≠ t) : (updThread t f s).threads u = s.threads u := by
  simp [updThread, h]

/-- The drain loop of `cacncel_all_signal` leaves the notification fields
alone and appends the drained list to the run queue in order. -/
theorem drainQueue_fields (l : List Nat) : ∀ s : KS,
    (drainQueue l s).ntfnState = s.ntfnState ∧
    (drainQueue l s).queue = s.queue ∧
    (drainQueue l s).boundTcb = s.boundTcb ∧
    (drainQueue l s).msgIdentifier = s.msgIdentifier ∧
    (drainQueue l s).reschedCount = s.reschedCount ∧
    (drainQueue l s).runQueue = s.runQueue ++ l := by
  induction l with
  | nil => intro s; simp [drainQueue]
  | cons t ts ih =>
      intro s
      have h := ih (sched_enqueue t (set_thread_state t .ThreadStateRestart s))
      simpa [drainQueue, sched_enqueue, set_thread_state] using h

/-- Threads not in the drained list are untouched by the drain loop. -/
theorem drainQueue_threads_not_mem (l : List Nat) : ∀ (s : KS) (t : Nat),
    t ∉ l → (drainQueue l s).threads t = s.threads t := by
  induction l with
  | nil => intro s t _; rfl
  | cons u us ih =>
      intro s t ht
      have hne : t ∉ us := fun hm => ht (List.mem_cons_of_mem u hm)
      have hu : t ≠ u := fun he => ht (he ▸ List.mem_cons_self u us)
      rw [drainQueue, ih _ t hne]
      simp only [sched_enqueue, set_thread_state]
      exact updThread_threads_ne u t _ s hu

/-- Every thread in the drained list ends up in the `Restart` state. -/
theorem drainQueue_threads_mem (l : List Nat) : ∀ (s : KS) (t : Nat),
    t ∈ l → ((drainQueue l s).threads t).tcbState = .ThreadStateRestart := by
  induction l with
  | nil => intro s t ht; cases ht
  | cons u us ih =>
      intro s t ht
      by_cases hm : t ∈ us
      · exact ih _ t hm
      · have htu : t = u := by
          rcases List.mem_cons.mp ht with h | h
          · exact h
          · exact absurd h hm
        subst htu
        rw [drainQueue, drainQueue_threads_not_mem us _ t hm, sched_enqueue]
        simp [set_thread_state]

/-- An idle notification with nobody queued, nobody bound, and all threads
inactive: the state of a freshly retyped notification object. -/
def ks0 : KS :=
  { ntfnState := .Idle
    boundTcb := 0
    msgIdentifier := 0
    queue := []
    ntfnPtr := 77
    threads := fun _ => ⟨.ThreadStateInactive, 0, 0, false⟩
    runQueue := []
    switchTo := []
    reschedCount := 0 }

/-- C3 (counterexample): `setActive` does not preserve the invariant
`state = Waiting ⟺ queue non-empty`.  Starting from the idle notification
`ks0`, a blocking `receiveSignal` by thread `1` yields a `Waiting`
notification with queue `[1]` satisfying the invariant; applying
`setActive` (the `active` method) to it yields `state = Active` with the
still non-empty queue `[1]`, violating the invariant. -/
theorem setActive_breaks_ntfn_invariant :
    NtfnInv (receive_signal 1 true ks0) ∧
    ¬ NtfnInv (active 5 (receive_signal 1 true ks0)) := by
  constructor
  · simp [NtfnInv, receive_signal, ks0, set_thread_state]
  · simp [NtfnInv, active, receive_signal, ks0, set_thread_state]

/-- C3 (amended): from any state satisfying the queue invariant
`state = Waiting ⟺ queue non-empty`, the public notification operations
preserve it — `sendSignal` (on every non-panicking path), `receiveSignal`,
`cancelSignal` and `cancelAllSignals` unconditionally, and `setActive`
whenever the notification is not `Waiting`, which is the only situation in
which the code invokes it (the `Idle` branch of `send_signal`).  Moreover
the `messageWord` accumulation discipline holds: a send in `Active` ORs
the badge into `msg_identifier`, and every transition into `Active`
overwrites `msg_identifier` with exactly the badge, so while `Active` the
word is the OR of all badges accumulated since the state last became
`Active`. -/
theorem notification_ops_preserve_invariant (s : KS) (hInv : NtfnInv s) :
    (∀ b, s.ntfnState ≠ .Waiting → NtfnInv (active b s)) ∧
    (∀ b s', send_signal b s = some s' → NtfnInv s') ∧
    (∀ t blocking, NtfnInv (receive_signal t blocking s)) ∧
    (∀ t, NtfnInv (cancel_signal t s)) ∧
    NtfnInv (cacncel_all_signal s) ∧
    (∀ b, s.ntfnState = .Active →
      send_signal b s = some { s with msgIdentifier := s.msgIdentifier ||| b }) ∧
    (∀ b, (active b s).ntfnState = .Active ∧ (active b s).msgIdentifier = b) := by
  have hq : s.ntfnState ≠ .Waiting → s.queue = [] := by
    intro h
    by_contra hne
    exact h (hInv.mpr hne)
  refine ⟨?_, ?_, ?_, ?_, ?_, ?_, fun b => ⟨rfl, rfl⟩⟩
  · intro b h
    have hq0 : s.queue = [] := hq h
    simp [NtfnInv, active, hq0]
  · intro b s' hs
    cases hst : s.ntfnState with
    | Idle =>
        have hq0 : s.queue = [] := hq (by simp [hst])
        rw [send_signal, hst] at hs
        split_ifs at hs with h1 h2 <;>
          (cases hs; simp [NtfnInv, active, possible_switch_to,
            set_badge_register, set_thread_state, cancel_ipc, hst, hq0])
    | Waiting =>
        rw [send_signal, hst] at hs
        cases hsq : s.queue with
        | nil => rw [hsq] at hs; cases hs
        | cons d rest =>
            rw [hsq] at hs
            by_cases hrest : rest = []
            · simp only [hrest, if_pos rfl] at hs
              cases hs
              simp [NtfnInv, possible_switch_to, set_badge_register,
                set_thread_state, hrest]
            · simp only [if_neg hrest] at hs
              cases hs
              simp [NtfnInv, possible_switch_to, set_badge_register,
                set_thread_state, hrest]
    | Active =>
        have hq0 : s.queue = [] := hq (by simp [hst])
        rw [send_signal, hst] at hs
        cases hs
        simp [NtfnInv, hst, hq0]
  · intro t blocking
    rw [receive_signal]
    cases hst : s.ntfnState with
    | Idle =>
        cases blocking
        · have hq0 : s.queue = [] := hq (by simp [hst])
          simp [NtfnInv, set_badge_register, hst, hq0]
        · simp [NtfnInv, set_thread_state]
    | Waiting =>
        cases blocking
        · have hqn : s.queue ≠ [] := hInv.mp hst
          simp [NtfnInv, set_badge_register, hst, hqn]
        · simp [NtfnInv, set_thread_state]
    | Active =>
        have hq0 : s.queue = [] := hq (by simp [hst])
        simp [NtfnInv, set_badge_register, hq0]
  · intro t
    rw [cancel_signal]
    by_cases hq0 : s.queue.erase t = []
    · simp [NtfnInv, set_thread_state, hq0]
    · have hqn : s.queue ≠ [] := by
        intro h
        apply hq0
        rw [h]
        rfl
      have hw : s.ntfnState = .Waiting := hInv.mpr hqn
      simp [NtfnInv, set_thread_state, hq0, hw]
  · rw [cacncel_all_signal]
    by_cases hst : s.ntfnState = .Waiting
    · have h := drainQueue_fields s.queue { s with ntfnState := .Idle, queue := [] }
      simp [NtfnInv, rescheduleRequired, hst, h.1, h.2.1]
    · simpa [hst] using hInv
  · intro b hst
    rw [send_signal, hst]

/-- Witness for C3 (amended) at the concrete idle notification `ks0`:
the invariant holds initially and is preserved across a blocking receive. -/
theorem notification_ops_preserve_invariant_witness :
    NtfnInv (receive_signal 1 true ks0) :=
  (notification_ops_preserve_invariant ks0 (by decide)).2.2.1 1 true

/-- C4: `send_signal` on an `Idle` notification takes the direct-delivery
fast path exactly when a bound thread exists (`bound_tcb ≠ 0`) and that
thread's state is precisely `BlockedOnReceive`: it cancels the thread's
pending IPC, sets it `Running`, writes the badge into its badge register
and offers it as a possible switch target, leaving the notification
fields themselves unchanged; in every other `Idle` case (no bound thread,
or the bound thread in any other state — including blocked on this very
notification) it transitions the notification to `Active` with
`msg_identifier = badge`. -/
theorem send_signal_idle_spec (s : KS) (b : Nat) (hst : s.ntfnState = .Idle) :
    ((s.boundTcb ≠ 0 ∧
        (s.threads s.boundTcb).tcbState = .ThreadStateBlockedOnReceive) →
      ∃ s', send_signal b s = some s' ∧
        (s'.threads s.boundTcb).ipcCancelled = true ∧
        (s'.threads s.boundTcb).tcbState = .ThreadStateRunning ∧
        (s'.threads s.boundTcb).badgeReg = b ∧
        s'.switchTo = s.switchTo ++ [s.boundTcb] ∧
        s'.ntfnState = .Idle ∧
        s'.msgIdentifier = s.msgIdentifier ∧
        s'.queue = s.queue ∧
        (∀ u, u ≠ s.boundTcb → s'.threads u = s.threads u)) ∧
    ((s.boundTcb = 0 ∨
        (s.threads s.boundTcb).tcbState ≠ .ThreadStateBlockedOnReceive) →
      send_signal b s = some (active b s) ∧
      (active b s).ntfnState = .Active ∧
      (active b s).msgIdentifier = b ∧
      (active b s).threads = s.threads ∧
      (active b s).queue = s.queue ∧
      (active b s).switchTo = s.switchTo) := by
  constructor
  · rintro ⟨h0, hbr⟩
    rw [send_signal, hst, if_neg h0, if_pos hbr]
    refine ⟨_, rfl, ?_, ?_, ?_, ?_, ?_, ?_, ?_, ?_⟩ <;>
      simp [possible_switch_to, set_badge_register, set_thread_state,
        cancel_ipc, hst]
    intro u hu
    simp [updThread_threads_ne _ _ _ _ hu]
  · intro h
    by_cases h0 : s.boundTcb = 0
    · rw [send_signal, hst, if_pos h0]
      exact ⟨rfl, rfl, rfl, rfl, rfl, rfl⟩
    · have hbr : (s.threads s.boundTcb).tcbState ≠ .ThreadStateBlockedOnReceive := by
        rcases h with h | h
        · exact absurd h h0
        · exact h
      rw [send_signal, hst, if_neg h0, if_neg hbr]
      exact ⟨rfl, rfl, rfl, rfl, rfl, rfl⟩

/-- Concrete state for the C4 witness: idle notification whose bound
thread `1` is blocked on receive. -/
def ksBound : KS :=
  { ntfnState := .Idle
    boundTcb := 1
    msgIdentifier := 0
    queue := []
    ntfnPtr := 77
    threads := fun i =>
      if i = 1 then ⟨.ThreadStateBlockedOnReceive, 0, 55, false⟩
      else ⟨.ThreadStateInactive, 0, 0, false⟩
    runQueue := []
    switchTo := []
    reschedCount := 0 }

/-- Witness for C4: on `ksBound` the fast path fires, and on `ks0` (no
bound thread) the signal transitions the notification to `Active`. -/
theorem send_signal_idle_spec_witness :
    (∃ s', send_signal 9 ksBound = some s' ∧
      (s'.threads ksBound.boundTcb).ipcCancelled = true ∧
      (s'.threads ksBound.boundTcb).tcbState = .ThreadStateRunning ∧
      (s'.threads ksBound.boundTcb).badgeReg = 9 ∧
      s'.switchTo = ksBound.switchTo ++ [ksBound.boundTcb] ∧
      s'.ntfnState = .Idle ∧
      s'.msgIdentifier = ksBound.msgIdentifier ∧
      s'.queue = ksBound.queue ∧
      (∀ u, u ≠ ksBound.boundTcb → s'.threads u = ksBound.threads u)) ∧
    send_signal 9 ks0 = some (active 9 ks0) :=
  ⟨(send_signal_idle_spec ksBound 9 rfl).1 (by constructor <;> decide),
   ((send_signal_idle_spec ks0 9 rfl).2 (Or.inl rfl)).1⟩

/-- C5: `send_signal` on a `Waiting` notification dequeues exactly the
head thread (repeated signals therefore release waiters in FIFO order),
sets it `Running`, writes the badge into its badge register, offers it as
a possible switch target, and ends in `Idle` if and only if the queue
became empty (staying `Waiting` otherwise); in `Waiting` with an empty
queue the call is the fatal `panic!("queue is empty!")` path, modelled as
`none`, not a recoverable result. -/
theorem send_signal_waiting_spec (s : KS) (b : Nat) (hst : s.ntfnState = .Waiting) :
    (s.queue = [] → send_signal b s = none) ∧
    (∀ d rest, s.queue = d :: rest →
      ∃ s', send_signal b s = some s' ∧
        s'.queue = rest ∧
        (s'.ntfnState = .Idle ↔ rest = []) ∧
        (s'.ntfnState = .Waiting ↔ rest ≠ []) ∧
        (s'.threads d).tcbState = .ThreadStateRunning ∧
        (s'.threads d).badgeReg = b ∧
        s'.switchTo = s.switchTo ++ [d] ∧
        s'.msgIdentifier = s.msgIdentifier ∧
        s'.boundTcb = s.boundTcb ∧
        (∀ u, u ≠ d → s'.threads u = s.threads u)) := by
  constructor
  · intro hq
    rw [send_signal, hst, hq]
  · intro d rest hq
    rw [send_signal, hst, hq]
    by_cases hrest : rest = []
    · subst hrest
      refine ⟨_, rfl, ?_, ?_, ?_, ?_, ?_, ?_, ?_, ?_, ?_⟩ <;>
        simp [possible_switch_to, set_badge_register, set_thread_state]
      intro u hu
      simp [updThread_threads_ne _ _ _ _ hu]
    · refine ⟨_, rfl, ?_, ?_, ?_, ?_, ?_, ?_, ?_, ?_, ?_⟩ <;>
        simp [possible_switch_to, set_badge_register, set_thread_state, hrest]
      intro u hu
      simp [updThread_threads_ne _ _ _ _ hu]

/-- Concrete state for the C5 witness: notification `Waiting` with
threads `1` and `2` queued in that order. -/
def ksWaiting2 : KS :=
  { ntfnState := .Waiting
    boundTcb := 0
    msgIdentifier := 0
    queue := [1, 2]
    ntfnPtr := 77
    threads := fun _ => ⟨.ThreadStateBlockedOnNotification, 0, 77, false⟩
    runQueue := []
    switchTo := []
    reschedCount := 0 }

/-- Witness for C5 on `ksWaiting2`: the head thread `1` is dequeued and
the notification stays `Waiting` over the remaining queue `[2]`. -/
theorem send_signal_waiting_spec_witness :
    ∃ s', send_signal 3 ksWaiting2 = some s' ∧
      s'.queue = [2] ∧
      (s'.ntfnState = .Idle ↔ ([2] : List Nat) = []) ∧
      (s'.ntfnState = .Waiting ↔ ([2] : List Nat) ≠ []) ∧
      (s'.threads 1).tcbState = .ThreadStateRunning ∧
      (s'.threads 1).badgeReg = 3 ∧
      s'.switchTo = ksWaiting2.switchTo ++ [1] ∧
      s'.msgIdentifier = ksWaiting2.msgIdentifier ∧
      s'.boundTcb = ksWaiting2.boundTcb ∧
      (∀ u, u ≠ 1 → s'.threads u = ksWaiting2.threads u) :=
  (send_signal_waiting_spec ksWaiting2 3 rfl).2 1 [2] rfl

/-- C6: `receive_signal` on an `Idle` or `Waiting` notification with
`is_blocking = true` records this notification as the thread's blocking
object, sets the thread's state to `BlockedOnNotification`, appends the
thread to the tail of the queue and transitions to `Waiting`; with
`is_blocking = false` it writes badge `0` into the thread's badge register
and leaves the notification state, queue and message word unchanged; on an
`Active` notification it writes `msg_identifier` into the thread's badge
register and transitions to `Idle`. -/
theorem receive_signal_spec (s : KS) (t : Nat) :
    ((s.ntfnState = .Idle ∨ s.ntfnState = .Waiting) →
      ((receive_signal t true s).queue = s.queue ++ [t] ∧
       (receive_signal t true s).ntfnState = .Waiting ∧
       ((receive_signal t true s).threads t).blockingObj = s.ntfnPtr ∧
       ((receive_signal t true s).threads t).tcbState =
         .ThreadStateBlockedOnNotification) ∧
      (((receive_signal t false s).threads t).badgeReg = 0 ∧
       (receive_signal t false s).ntfnState = s.ntfnState ∧
       (receive_signal t false s).queue = s.queue ∧
       (receive_signal t false s).msgIdentifier = s.msgIdentifier)) ∧
    (∀ blocking, s.ntfnState = .Active →
      ((receive_signal t blocking s).threads t).badgeReg = s.msgIdentifier ∧
      (receive_signal t blocking s).ntfnState = .Idle) := by
  constructor
  · intro hiw
    rcases hiw with hst | hst <;>
      refine ⟨⟨?_, ?_, ?_, ?_⟩, ?_, ?_, ?_, ?_⟩ <;>
        simp [receive_signal, hst, set_thread_state, set_badge_register]
  · intro blocking hst
    refine ⟨?_, ?_⟩ <;> simp [receive_signal, hst, set_badge_register]

/-- Witness for C6 at the idle notification `ks0` and thread `1`. -/
theorem receive_signal_spec_witness :
    (receive_signal 1 true ks0).queue = ks0.queue ++ [1] ∧
    (receive_signal 1 true ks0).ntfnState = .Waiting :=
  ⟨(((receive_signal_spec ks0 1).1 (Or.inl rfl)).1).1,
   (((receive_signal_spec ks0 1).1 (Or.inl rfl)).1).2.1⟩

/-- C7: `cacncel_all_signal` is the identity unless the notification is
`Waiting`; when `Waiting` it transitions to `Idle`, clears the queue
(head and tail both zeroed, i.e., the empty list), sets every previously
queued thread to `Restart`, appends the drained threads to the scheduler
run queue head-to-tail — each queued thread (the wait queue holds no
duplicates) is enqueued exactly once — and raises the
reschedule-required flag exactly once, after the whole queue is drained. -/
theorem cacncel_all_signal_spec (s : KS) :
    (s.ntfnState ≠ .Waiting → cacncel_all_signal s = s) ∧
    (s.ntfnState = .Waiting →
      (cacncel_all_signal s).ntfnState = .Idle ∧
      (cacncel_all_signal s).queue = [] ∧
      (∀ t ∈ s.queue,
        ((cacncel_all_signal s).threads t).tcbState = .ThreadStateRestart) ∧
      (cacncel_all_signal s).runQueue = s.runQueue ++ s.queue ∧
      (∀ t, ((cacncel_all_signal s).runQueue).count t =
        (s.runQueue).count t + (s.queue).count t) ∧
      (s.queue.Nodup → ∀ t ∈ s.queue,
        ((cacncel_all_signal s).runQueue).count t = (s.runQueue).count t + 1) ∧
      (cacncel_all_signal s).reschedCount = s.reschedCount + 1) := by
  constructor
  · intro h
    rw [cacncel_all_signal, if_neg h]
  · intro hst
    rw [cacncel_all_signal, if_pos hst]
    have hf := drainQueue_fields s.queue { s with ntfnState := .Idle, queue := [] }
    have hrq : (drainQueue s.queue
        { s with ntfnState := .Idle, queue := [] }).runQueue =
        s.runQueue ++ s.queue := hf.2.2.2.2.2
    refine ⟨?_, ?_, ?_, ?_, ?_, ?_, ?_⟩
    · simp [rescheduleRequired, hf.1]
    · simp [rescheduleRequired, hf.2.1]
    · intro t ht
      simpa [rescheduleRequired] using
        drainQueue_threads_mem s.queue { s with ntfnState := .Idle, queue := [] } t ht
    · simp [rescheduleRequired, hrq]
    · intro t
      simp [rescheduleRequired, hrq, List.count_append]
    · intro hnd t ht
      simp [rescheduleRequired, hrq, List.count_append,
        List.count_eq_one_of_mem hnd ht]
    · simp [rescheduleRequired, hf.2.2.2.2.1]

/-- Concrete state for the C7 witness: notification `Waiting` with three
queued threads `1, 2, 3`. -/
def ksWaiting3 : KS :=
  { ntfnState := .Waiting
    boundTcb := 0
    msgIdentifier := 0
    queue := [1, 2, 3]
    ntfnPtr := 77
    threads := fun _ => ⟨.ThreadStateBlockedOnNotification, 0, 77, false⟩
    runQueue := []
    switchTo := []
    reschedCount := 0 }

/-- Witness for C7 on `ksWaiting3`: after the bulk cancel the state is
`Idle`, the queue is empty, the three threads are on the run queue in
order, and exactly one reschedule was requested. -/
theorem cacncel_all_signal_spec_witness :
    (cacncel_all_signal ksWaiting3).ntfnState = .Idle ∧
    (cacncel_all_signal ksWaiting3).queue = [] ∧
    (cacncel_all_signal ksWaiting3).runQueue = ksWaiting3.runQueue ++ [1, 2, 3] ∧
    (cacncel_all_signal ksWaiting3).reschedCount = ksWaiting3.reschedCount + 1 :=
  ⟨((cacncel_all_signal_spec ksWaiting3).2 rfl).1,
   ((cacncel_all_signal_spec ksWaiting3).2 rfl).2.1,
   ((cacncel_all_signal_spec ksWaiting3).2 rfl).2.2.2.1,
   ((cacncel_all_signal_spec ksWaiting3).2 rfl).2.2.2.2.2.2⟩

/-- C10: `receive_signal` on an `Active` notification changes only the
notification's state field (to `Idle`) and the receiving thread's badge
register (to the consumed `msg_identifier`): the `msg_identifier` field
itself is not cleared and still holds the consumed value, the bound
thread and the queue are unchanged, the receiving thread's other fields
and every other thread are untouched, and no scheduler effect occurs.
The stale word is never observed as a stale value because every
transition into `Active` (`active`, used by `setActive` and by the
`Idle` branch of `send_signal`) overwrites `msg_identifier` with the new
badge rather than ORing into it. -/
theorem receive_signal_active_frame (s : KS) (t : Nat) (blocking : Bool)
    (hst : s.ntfnState = .Active) :
    ((receive_signal t blocking s).ntfnState = .Idle ∧
     (receive_signal t blocking s).msgIdentifier = s.msgIdentifier ∧
     (receive_signal t blocking s).boundTcb = s.boundTcb ∧
     (receive_signal t blocking s).queue = s.queue ∧
     ((receive_signal t blocking s).threads t).badgeReg = s.msgIdentifier ∧
     ((receive_signal t blocking s).threads t).tcbState = (s.threads t).tcbState ∧
     ((receive_signal t blocking s).threads t).blockingObj =
       (s.threads t).blockingObj ∧
     (∀ u, u ≠ t → (receive_signal t blocking s).threads u = s.threads u) ∧
     (receive_signal t blocking s).runQueue = s.runQueue ∧
     (receive_signal t blocking s).switchTo = s.switchTo ∧
     (receive_signal t blocking s).reschedCount = s.reschedCount) ∧
    (∀ (s2 : KS) (b : Nat),
      (active b s2).msgIdentifier = b ∧ (active b s2).ntfnState = .Active) := by
  constructor
  · rw [receive_signal, hst]
    refine ⟨?_, ?_, ?_, ?_, ?_, ?_, ?_, ?_, ?_, ?_, ?_⟩ <;>
      simp [set_badge_register]
    intro u hu
    simp [updThread_threads_ne _ _ _ _ hu]
  · intro s2 b
    exact ⟨rfl, rfl⟩

/-- Concrete state for the C10 witness: an `Active` notification holding
accumulated badge bits `9`. -/
def ksActive : KS :=
  { ntfnState := .Active
    boundTcb := 4
    msgIdentifier := 9
    queue := []
    ntfnPtr := 77
    threads := fun _ => ⟨.ThreadStateRunning, 0, 0, false⟩
    runQueue := []
    switchTo := []
    reschedCount := 0 }

/-- Witness for C10 on `ksActive`: after thread `2` receives, the message
word still reads `9`, the bound thread is unchanged, and the state is
`Idle`. -/
theorem receive_signal_active_frame_witness :
    (receive_signal 2 true ksActive).ntfnState = .Idle ∧
    (receive_signal 2 true ksActive).msgIdentifier = 9 ∧
    (receive_signal 2 true ksActive).boundTcb = 4 ∧
    ((receive_signal 2 true ksActive).threads 2).badgeReg = 9 :=
  ⟨(receive_signal_active_frame ksActive 2 true rfl).1.1,
   (receive_signal_active_frame ksActive 2 true rfl).1.2.1,
   (receive_signal_active_frame ksActive 2 true rfl).1.2.2.1,
   (receive_signal_active_frame ksActive 2 true rfl).1.2.2.2.2.1⟩

end ReL4
